/-
Verification development for the insta-api repository.

The repository's JavaScript sources (src/login.js, src/upload-video.js,
src/a.js and the unnamed variants) are shallowly embedded below: pure
string manipulation becomes Lean functions on `String`/`List Char`,
network and filesystem effects become explicit environments and event
traces, and JavaScript exceptions become `Except`.  Each definition is a
direct translation of the corresponding function in the source; external
calls (the instagram-private-api client, the S3/R2 client, interactive
prompts) are modelled by environment fields supplying their outcomes.
-/
import Mathlib

namespace InstaApi

/-! ### String helpers

JavaScript's `String.prototype.includes`, `endsWith` and `toLowerCase`
are modelled on the `List Char` representation of Lean strings. -/

/-- Lowercase every character of a string (JavaScript `toLowerCase`). -/
def lowerStr (s : String) : String :=
  ⟨s.data.map Char.toLower⟩

/-- Test whether `pat` is an initial segment of `s`. -/
def charsStartWith : List Char → List Char → Bool
  | [], _ => true
  | _ :: _, [] => false
  | a :: pa, b :: sb => a == b && charsStartWith pa sb

/-- Test whether `pat` occurs contiguously inside `s`. -/
def charsContain (pat : List Char) : List Char → Bool
  | [] => charsStartWith pat []
  | c :: rest => charsStartWith pat (c :: rest) || charsContain pat rest

/-- JavaScript `s.includes(pat)`. -/
def strContains (s pat : String) : Bool :=
  charsContain pat.data s.data

/-- JavaScript `s.endsWith(suf)`. -/
def strEndsWith (s suf : String) : Bool :=
  charsStartWith suf.data.reverse s.data.reverse

/-! ### Error model and classification (src/login.js, `normalizeApiError`)

An API error carries a top-level `message`, an optional nested
`response.body.message` (absent modelled as `""`, matching the
`|| ""` defaults in the source), and optionally the
`response.body.two_factor_info` payload. -/

/-- An error surfaced by the external instagram client. -/
structure IgError where
  message : String
  bodyMessage : String
  hasTwoFactorInfo : Bool
deriving DecidableEq, Repr

/-- Result of `normalizeApiError` (src/login.js lines 241-256). -/
structure NormalizedError where
  message : String
  full : String
  isCheckpoint : Bool
  isChallenge : Bool
  isTwoFactor : Bool
deriving DecidableEq, Repr

/-- src/login.js lines 241-256: lowercase the concatenation of the
top-level message and the nested body message (joined by a space) and
test the marker substrings. -/
def normalizeApiError (error : IgError) : NormalizedError :=
  let message := error.message
  let bodyMessage := error.bodyMessage
  let full := lowerStr (message ++ " " ++ bodyMessage)
  { message := message
    full := full
    isCheckpoint := strContains full "checkpoint_required"
    isChallenge := strContains full "challenge_required"
    isTwoFactor :=
      strContains full "two_factor_required" ||
      strContains full "two-factor" ||
      strContains full "2fa" }

/-- src/login.js lines 258-261. -/
def isRecoverablePreLoginError (error : IgError) : Bool :=
  let parsed := normalizeApiError error
  parsed.isCheckpoint || parsed.isChallenge || parsed.isTwoFactor

/-- The classification the spec describes: case-insensitive matching of
exactly the markers `two_factor_required`/`two-factor`,
`checkpoint_required` and `challenge_required` against the concatenation
of the top-level and nested messages.  Stated from the spec's words, to
be compared with `normalizeApiError`. -/
def specMarkerMatch (error : IgError) : Bool :=
  let full := lowerStr (error.message ++ " " ++ error.bodyMessage)
  strContains full "two_factor_required" ||
  strContains full "two-factor" ||
  strContains full "checkpoint_required" ||
  strContains full "challenge_required"

/-- The amended classification: the code additionally treats the marker
`2fa` as two-factor. -/
def amendedClassify (error : IgError) : Bool × Bool × Bool :=
  let full := lowerStr (error.message ++ " " ++ error.bodyMessage)
  (strContains full "two_factor_required" ||
     strContains full "two-factor" ||
     strContains full "2fa",
   strContains full "checkpoint_required",
   strContains full "challenge_required")

/-! ### Session data and persistence (src/login.js, `saveSession`)

A serialized session is modelled as a JSON object: an association list
from keys to opaque values. -/

/-- A serialized session object: keys paired with opaque value blobs. -/
abbrev SessionData := List (String × String)

/-- The effect of `delete serialized.constants` (src/login.js line 297,
src/a.js line 33): remove the binding of the top-level key
`constants`. -/
def eraseConstants (d : SessionData) : SessionData :=
  d.filter (fun kv => kv.1 ≠ "constants")

/-- A filesystem operation issued by the persistence code. -/
inductive FsOp
  | writeFile (path : String) (content : SessionData)
  | rename (src dst : String)
deriving DecidableEq, Repr

/-- src/login.js lines 295-299: `saveSession` serializes the client
state, deletes the `constants` key and issues a single direct
`writeFileSync` to the session file path. -/
def saveSessionOps (serialized : SessionData) (sessionFilePath : String) :
    List FsOp :=
  [FsOp.writeFile sessionFilePath (eraseConstants serialized)]

/-! ### Video selection (src/upload-video.js) -/

/-- An object-store listing entry: key and last-modified timestamp
(milliseconds since epoch; `none` when the field is absent). -/
structure VideoItem where
  key : String
  lastModified : Option Nat
deriving DecidableEq, Repr

/-- src/upload-video.js lines 32-41: keep objects whose lowercased key
ends with one of the four video extensions. -/
def isVideoObject (item : VideoItem) : Bool :=
  let lowered := lowerStr item.key
  strEndsWith lowered ".mp4" ||
  strEndsWith lowered ".mov" ||
  strEndsWith lowered ".m4v" ||
  strEndsWith lowered ".webm"

/-- One page of a `ListObjectsV2` response. -/
structure R2Page where
  contents : List VideoItem
  isTruncated : Bool
  nextContinuationToken : Option String
deriving Repr

/-- JavaScript truthiness of the continuation token: the `do`/`while`
loop continues only when `IsTruncated` holds and the next token is a
present, non-empty string. -/
def tokenTruthy (t : Option String) : Bool :=
  match t with
  | none => false
  | some s => s ≠ ""

/-- The page-by-page collection loop of `listAllVideosFromR2`
(src/upload-video.js lines 47-64): filter each page's contents and
follow continuation tokens while they are truthy.  The environment
supplies the successive responses in order. -/
def collectVideoPages : List R2Page → List VideoItem
  | [] => []
  | p :: rest =>
    p.contents.filter isVideoObject ++
      (if p.isTruncated && tokenTruthy p.nextContinuationToken then
        collectVideoPages rest
      else [])

/-- The raw contents of the pages actually reached by the loop,
before filtering. -/
def reachedContents : List R2Page → List VideoItem
  | [] => []
  | p :: rest =>
    p.contents ++
      (if p.isTruncated && tokenTruthy p.nextContinuationToken then
        reachedContents rest
      else [])

/-- Sort key used by the comparator at src/upload-video.js lines 66-70:
the epoch milliseconds of `LastModified`, or 0 when absent. -/
def itemTime (a : VideoItem) : Nat :=
  match a.lastModified with
  | some t => t
  | none => 0

/-- src/upload-video.js lines 43-73: collect the filtered contents of
all reached pages and sort ascending by last-modified time. -/
def listAllVideosFromR2 (pages : List R2Page) : List VideoItem :=
  (collectVideoPages pages).mergeSort
    (fun a b => decide (itemTime a ≤ itemTime b))

/-- src/upload-video.js lines 158-165: return the first listed item
whose key is not in the uploaded set (`null` when there is none).  The
uploaded set is modelled as the list of its elements. -/
def pickNextUnpostedVideo : List VideoItem → List String → Option VideoItem
  | [], _ => none
  | item :: rest, uploadedSet =>
    if uploadedSet.contains item.key then
      pickNextUnpostedVideo rest uploadedSet
    else some item

/-! ### Publish fallback (src/upload-video.js, `publishAsReel`) -/

/-- An opaque byte buffer. -/
abbrev Buf := List Nat

/-- The payload of one `ig.publish.video` attempt.  `isClip` and `post`
are the two optional flags; the remaining fields are shared by all three
attempts. -/
structure PublishPayload where
  video : Buf
  coverImage : Buf
  caption : String
  isClip : Option Bool
  post : Option String
deriving DecidableEq, Repr

/-- Result of a successful publish call (opaque media metadata). -/
structure PublishResult where
  mediaId : String
  mediaCode : String
deriving DecidableEq, Repr

/-- The three payload shapes of src/upload-video.js lines 139-143, in
attempt order. -/
def publishAttempts (video coverImage : Buf) (caption : String) :
    List PublishPayload :=
  [{ video := video, coverImage := coverImage, caption := caption
     isClip := some true, post := none },
   { video := video, coverImage := coverImage, caption := caption
     isClip := none, post := some "reel" },
   { video := video, coverImage := coverImage, caption := caption
     isClip := none, post := none }]

/-- The error thrown when the attempt list is empty and no error was
recorded (src/upload-video.js line 155). -/
def unknownPublishError : IgError :=
  { message := "Unknown publish error.", bodyMessage := "", hasTwoFactorInfo := false }

/-- The `for`/`catch` loop of src/upload-video.js lines 145-155: try
each payload with the external publish call `f`, returning the first
success; carry the last error and throw it when every attempt fails.
Also returns the list of payloads actually attempted. -/
def tryPublishSeq (f : PublishPayload → Except IgError PublishResult) :
    List PublishPayload → Option IgError →
      Except IgError PublishResult × List PublishPayload
  | [], some e => (Except.error e, [])
  | [], none => (Except.error unknownPublishError, [])
  | p :: rest, _ =>
    match f p with
    | Except.ok r => (Except.ok r, [p])
    | Except.error e =>
      let (res, tried) := tryPublishSeq f rest (some e)
      (res, p :: tried)

/-- src/upload-video.js lines 136-156. -/
def publishAsReel (f : PublishPayload → Except IgError PublishResult)
    (video coverImage : Buf) (caption : String) :
    Except IgError PublishResult × List PublishPayload :=
  tryPublishSeq f (publishAttempts video coverImage caption) none

/-! ### Multi-account acquisition (src/login.js lines 289-423)

The external world is an environment recording the outcome of every
potential external call; the embedding threads an event trace recording
which network calls and prompts actually happen, and returns the final
session-file content. -/

/-- Content of the on-disk session file: either malformed JSON or a
well-formed serialized session object. -/
inductive FileContent
  | corrupt
  | wellFormed (data : SessionData)
deriving DecidableEq, Repr

/-- Observable events of one acquisition: network calls, prompts and
waits. -/
inductive Ev
  | probe                -- ig.account.currentUser() / ig.user.info()
  | loginCall            -- ig.account.login(...)
  | preLogin             -- ig.simulate.preLoginFlow()
  | prompt               -- one interactive question to the operator
  | twoFactorLogin       -- ig.account.twoFactorLogin(...)
  | challengeAuto        -- ig.challenge.auto(true)
  | sendSecurityCode     -- ig.challenge.sendSecurityCode(code)
  | challengeGet         -- ig.challenge.getChallenge()
  | selectVerify         -- ig.challenge.selectVerifyMethod(...)
  | submitChallengeCode  -- challenge.code(code)
  | writeSession         -- fs.writeFileSync of the session file
  | wait (ms : Nat)      -- setTimeout delay
deriving DecidableEq, Repr

/-- The error produced by `JSON.parse` on a corrupt file. -/
def jsonParseError : IgError :=
  { message := "Unexpected token in JSON", bodyMessage := ""
    hasTwoFactorInfo := false }

/-- Environment for one run of `loginSingleAccount`: the session file
found on disk and the outcome of each external call the run may make,
in program order. -/
structure Env where
  file : Option FileContent
  /-- outcome of `ig.state.deserialize(session)` on a well-formed file -/
  deserializeResult : Except IgError Unit
  /-- outcome of `ig.account.currentUser()` inside `tryRestoreSession` -/
  restoreProbe : Except IgError Unit
  /-- outcome of `ig.simulate.preLoginFlow()` -/
  preLoginResult : Except IgError Unit
  /-- outcome of the first `ig.account.login(username, password)` -/
  loginResult : Except IgError Unit
  /-- operator's (trimmed) answer to the 2FA code prompt -/
  twoFactorCode : String
  /-- outcome of `ig.account.twoFactorLogin(...)` -/
  twoFactorLoginResult : Except IgError Unit
  /-- operator's (trimmed) answer to the checkpoint code prompt -/
  checkpointCode : String
  /-- outcome of `ig.challenge.sendSecurityCode(code)` -/
  sendCodeResult : Except IgError Unit
  /-- outcome of `ig.account.currentUser()` after checkpoint handling -/
  postChallengeProbe : Except IgError Unit
  /-- outcome of the second `ig.account.login` after checkpoint handling -/
  secondLoginResult : Except IgError Unit
  /-- the object returned by `ig.state.serialize()` after a fresh login -/
  serialized : SessionData
deriving Repr

/-- src/login.js lines 301-310: return `false` when no file exists;
otherwise parse it (throwing on corrupt JSON), deserialize into the
client and probe with `ig.account.currentUser()`. -/
def tryRestoreSession (env : Env) : Except IgError Bool × List Ev :=
  match env.file with
  | none => (Except.ok false, [])
  | some FileContent.corrupt => (Except.error jsonParseError, [])
  | some (FileContent.wellFormed _) =>
    match env.deserializeResult with
    | Except.error e => (Except.error e, [])
    | Except.ok _ =>
      match env.restoreProbe with
      | Except.error e => (Except.error e, [Ev.probe])
      | Except.ok _ => (Except.ok true, [Ev.probe])

/-- src/login.js lines 316-338: require `two_factor_info`, prompt for a
code, reject an empty code, then call `ig.account.twoFactorLogin`. -/
def handleTwoFactor (env : Env) (error : IgError) (username : String) :
    Except IgError Unit × List Ev :=
  if !error.hasTwoFactorInfo then
    (Except.error
      { message := "[" ++ username ++ "] Two-factor required, but API did not provide two_factor_info."
        bodyMessage := "", hasTwoFactorInfo := false }, [])
  else if env.twoFactorCode = "" then
    (Except.error
      { message := "[" ++ username ++ "] 2FA code was empty."
        bodyMessage := "", hasTwoFactorInfo := false }, [Ev.prompt])
  else
    (env.twoFactorLoginResult, [Ev.prompt, Ev.twoFactorLogin])

/-- src/login.js lines 340-358: fire `ig.challenge.auto(true)` ignoring
its errors, prompt once for a security code, reject an empty code, then
submit it with `ig.challenge.sendSecurityCode`; a rejection propagates
to the caller. -/
def handleCheckpoint (env : Env) (username : String) :
    Except IgError Unit × List Ev :=
  if env.checkpointCode = "" then
    (Except.error
      { message := "[" ++ username ++ "] Checkpoint code was empty."
        bodyMessage := "", hasTwoFactorInfo := false },
     [Ev.challengeAuto, Ev.prompt])
  else
    (env.sendCodeResult,
     [Ev.challengeAuto, Ev.prompt, Ev.sendSecurityCode])

/-- src/login.js lines 360-384: try the password login; on failure
classify the error, dispatch to two-factor or checkpoint handling
(after checkpoint handling, probe and fall back to a second login), and
rethrow anything unclassified. -/
def performLoginWithChallenges (env : Env) (username : String) :
    Except IgError Unit × List Ev :=
  match env.loginResult with
  | Except.ok _ => (Except.ok (), [Ev.loginCall])
  | Except.error e =>
    let parsed := normalizeApiError e
    if parsed.isTwoFactor then
      let (r, t) := handleTwoFactor env e username
      (r, Ev.loginCall :: t)
    else if parsed.isCheckpoint || parsed.isChallenge then
      let (r, t) := handleCheckpoint env username
      match r with
      | Except.error e2 => (Except.error e2, Ev.loginCall :: t)
      | Except.ok _ =>
        match env.postChallengeProbe with
        | Except.ok _ => (Except.ok (), Ev.loginCall :: t ++ [Ev.probe])
        | Except.error _ =>
          match env.secondLoginResult with
          | Except.ok _ =>
            (Except.ok (), Ev.loginCall :: t ++ [Ev.probe, Ev.loginCall])
          | Except.error e3 =>
            (Except.error e3, Ev.loginCall :: t ++ [Ev.probe, Ev.loginCall])
    else (Except.error e, [Ev.loginCall])

/-- Result record of `loginSingleAccount` (src/login.js lines 395
and 422). -/
structure AcqResult where
  username : String
  ok : Bool
  reusedSession : Bool
deriving DecidableEq, Repr

/-- The login-and-save tail of `loginSingleAccount` (src/login.js lines
411-422): run the login with challenge handling; on success, save the
constants-stripped serialized state as the new session file.  `t0` is
the trace accumulated before the `preLoginFlow` call.  (The
`postLoginFlow` fired on `process.nextTick` swallows its own errors and
has no observable effect on the acquisition result.) -/
def freshLoginProceed (env : Env) (username : String) (t0 : List Ev) :
    Except IgError AcqResult × List Ev × Option FileContent :=
  match performLoginWithChallenges env username with
  | (Except.error e, t) => (Except.error e, t0 ++ [Ev.preLogin] ++ t, env.file)
  | (Except.ok _, t) =>
    (Except.ok { username := username, ok := true, reusedSession := false },
     t0 ++ [Ev.preLogin] ++ t ++ [Ev.writeSession],
     some (FileContent.wellFormed (eraseConstants env.serialized)))

/-- The `preLoginFlow` gate of src/login.js lines 401-410: a pre-login
failure is rethrown unless classified recoverable, in which case the run
continues to `freshLoginProceed` (the login with challenge handling and
the session save). -/
def freshLoginTail (env : Env) (username : String) (t0 : List Ev) :
    Except IgError AcqResult × List Ev × Option FileContent :=
  match env.preLoginResult with
  | Except.ok _ => freshLoginProceed env username t0
  | Except.error e =>
    if isRecoverablePreLoginError e then freshLoginProceed env username t0
    else (Except.error e, t0 ++ [Ev.preLogin], env.file)

/-- src/login.js lines 386-423: restore the saved session when possible
(any restore exception is caught and demoted to a fresh login), else run
the fresh-login tail.  Returns the call result, the event trace and the
session file left on disk. -/
def loginSingleAccount (env : Env) (username : String) :
    Except IgError AcqResult × List Ev × Option FileContent :=
  match tryRestoreSession env with
  | (Except.ok true, t) =>
    (Except.ok { username := username, ok := true, reusedSession := true },
     t, env.file)
  | (Except.ok false, t) => freshLoginTail env username t
  | (Except.error _, t) => freshLoginTail env username t

/-! ### Old single-account login (src/login.js lines 26-192)

The first script in src/login.js: a session-restore preamble followed by
a `while (attempts < maxAttempts)` retry loop with hard-coded
`maxAttempts = 3` and a 5000 ms delay between attempts.  Per-attempt
external outcomes are supplied by the environment, indexed by the value
of the `attempts` counter at the time of the call. -/

/-- Environment for one run of the old `login()` script. -/
structure OldEnv where
  /-- `fs.existsSync(SESSION_FILE)` -/
  fileExists : Bool
  /-- `JSON.parse` and `ig.state.deserialize` both succeed -/
  loadOk : Bool
  /-- `ig.user.info()` on the restored session succeeds -/
  probeOk : Bool
  /-- outcome of the n-th `ig.account.login(username, password)` -/
  loginResult : Nat → Except IgError Unit
  /-- outcome of `ig.challenge.getChallenge()` at attempt n -/
  challengeGetResult : Nat → Except IgError Unit
  /-- outcome of `ig.challenge.selectVerifyMethod(...)` at attempt n -/
  selectVerifyResult : Nat → Except IgError Unit
  /-- whether `challenge.code(code)` accepts the code at attempt n -/
  challengeCodeOk : Nat → Bool
  /-- outcome of the 2FA `ig.account.login(..., verificationCode)` at attempt n -/
  twoFactorLoginResult : Nat → Except IgError Unit

/-- Terminal outcome of the old `login()` script. -/
inductive OldResult
  | success
  /-- the `throw error` at the `attempts >= maxAttempts` exit (line 185) -/
  | exhausted (e : IgError)
  /-- the `while` condition became false: `login()` returns `undefined` -/
  | fellThrough
deriving DecidableEq, Repr

/-- src/login.js lines 26-71 (old `handleCheckpoint`): prompt for a
delivery-method choice, call `selectVerifyMethod` (a failure resolves
`false`), then prompt for the code and submit it with
`challenge.code`; the boolean tells whether verification succeeded. -/
def oldHandleCheckpoint (env : OldEnv) (n : Nat) : Bool × List Ev :=
  match env.selectVerifyResult n with
  | Except.error _ => (false, [Ev.prompt, Ev.selectVerify])
  | Except.ok _ =>
    (env.challengeCodeOk n,
     [Ev.prompt, Ev.selectVerify, Ev.prompt, Ev.submitChallengeCode])

/-- The retry loop of src/login.js lines 106-192, with `fuel`
maintaining the invariant `fuel = maxAttempts - attempts`, so `fuel = 0`
is exactly the `while` condition turning false.  Checkpoint and
two-factor branches test raw (case-sensitive) substrings of the
top-level message, as the source does. -/
def oldLoop (env : OldEnv) (maxAttempts delayMs : Nat) :
    Nat → Nat → OldResult × List Ev
  | 0, _ => (OldResult.fellThrough, [])
  | fuel + 1, attempts =>
    match env.loginResult attempts with
    | Except.ok _ => (OldResult.success, [Ev.loginCall, Ev.writeSession])
    | Except.error e =>
      let attempts' := attempts + 1
      let cp : Bool × List Ev :=
        if strContains e.message "checkpoint" ||
            strContains e.message "challenge" then
          match env.challengeGetResult attempts with
          | Except.error _ => (false, [Ev.challengeGet])
          | Except.ok _ =>
            let (handled, tH) := oldHandleCheckpoint env attempts
            (handled, Ev.challengeGet :: tH)
        else (false, [])
      if cp.1 then
        -- `continue`: back to the loop condition, counter incremented
        let (r, t) := oldLoop env maxAttempts delayMs fuel attempts'
        (r, Ev.loginCall :: cp.2 ++ t)
      else
        let tf : Option OldResult × List Ev :=
          if strContains e.message "two-factor" then
            match env.twoFactorLoginResult attempts with
            | Except.ok _ =>
              (some OldResult.success,
               [Ev.prompt, Ev.loginCall, Ev.writeSession])
            | Except.error _ => (none, [Ev.prompt, Ev.loginCall])
          else (none, [])
        match tf.1 with
        | some r => (r, Ev.loginCall :: cp.2 ++ tf.2)
        | none =>
          if maxAttempts ≤ attempts' then
            (OldResult.exhausted e, Ev.loginCall :: cp.2 ++ tf.2)
          else
            let (r, t) := oldLoop env maxAttempts delayMs fuel attempts'
            (r, Ev.loginCall :: cp.2 ++ tf.2 ++ Ev.wait delayMs :: t)

/-- Trace of the session-restore preamble of the old `login()`
(src/login.js lines 80-98): the probe happens only when the file exists
and parsing plus deserialization succeeded; every failure is caught. -/
def oldRestoreTrace (env : OldEnv) : List Ev :=
  if env.fileExists then
    if env.loadOk then [Ev.probe] else []
  else []

/-- src/login.js lines 73-192 (old `login()`): restore-and-probe, then
the retry loop with `maxAttempts = 3` and a 5000 ms delay. -/
def oldLogin (env : OldEnv) : OldResult × List Ev :=
  if env.fileExists && env.loadOk && env.probeOk then
    (OldResult.success, oldRestoreTrace env)
  else
    let (r, t) := oldLoop env 3 5000 3 0
    (r, oldRestoreTrace env ++ t)

/-- The old retry loop's branch guards, bundled: an error is
"non-challenge" for the old loop when its raw top-level message contains
none of the (case-sensitive) substrings `checkpoint`, `challenge`,
`two-factor` tested at src/login.js lines 125 and 147. -/
def oldNonChallenge (e : IgError) : Bool :=
  !(strContains e.message "checkpoint") &&
  !(strContains e.message "challenge") &&
  !(strContains e.message "two-factor")

/-! ### Concrete environments used as witnesses -/

/-- A run with a valid persisted session: the file deserializes and the
probe succeeds. -/
def demoValidEnv : Env :=
  { file := some (FileContent.wellFormed [("cookies", "x")])
    deserializeResult := Except.ok (), restoreProbe := Except.ok ()
    preLoginResult := Except.ok (), loginResult := Except.ok ()
    twoFactorCode := "", twoFactorLoginResult := Except.ok ()
    checkpointCode := "", sendCodeResult := Except.ok ()
    postChallengeProbe := Except.ok (), secondLoginResult := Except.ok ()
    serialized := [("constants", "k"), ("cookies", "x")] }

/-- A run with no session file where the fresh login succeeds on the
first attempt. -/
def demoFreshEnv : Env :=
  { file := none
    deserializeResult := Except.ok (), restoreProbe := Except.ok ()
    preLoginResult := Except.ok (), loginResult := Except.ok ()
    twoFactorCode := "", twoFactorLoginResult := Except.ok ()
    checkpointCode := "", sendCodeResult := Except.ok ()
    postChallengeProbe := Except.ok (), secondLoginResult := Except.ok ()
    serialized := [("constants", "k"), ("cookies", "x")] }

/-- A run with no session file in which the login raises a checkpoint
and the submitted security code is rejected. -/
def checkpointRejectEnv : Env :=
  { file := none, deserializeResult := Except.ok ()
    restoreProbe := Except.ok (), preLoginResult := Except.ok ()
    loginResult := Except.error
      { message := "checkpoint_required", bodyMessage := ""
        hasTwoFactorInfo := false }
    twoFactorCode := "", twoFactorLoginResult := Except.ok ()
    checkpointCode := "123456"
    sendCodeResult := Except.error
      { message := "Please check the code we sent you and try again"
        bodyMessage := "", hasTwoFactorInfo := false }
    postChallengeProbe := Except.ok (), secondLoginResult := Except.ok ()
    serialized := [] }

/-- A plain credential-rejection error: none of the old loop's branch
markers occur in its message. -/
def badPasswordError : IgError :=
  { message := "Invalid password", bodyMessage := ""
    hasTwoFactorInfo := false }

/-- An old-script run with no session file in which every password
attempt fails with a plain credential rejection. -/
def retryFailEnv : OldEnv :=
  { fileExists := false, loadOk := false, probeOk := false
    loginResult := fun _ => Except.error badPasswordError
    challengeGetResult := fun _ => Except.ok ()
    selectVerifyResult := fun _ => Except.ok ()
    challengeCodeOk := fun _ => false
    twoFactorLoginResult := fun _ => Except.ok () }

/-! ### Helper lemmas -/

/-- Neither `performLoginWithChallenges` nor the session save reads any part of
the environment that depends on the session file, so the result and
trace of `freshLoginProceed` agree across environments with equal
login-relevant outcomes. -/
theorem freshLoginProceed_parts (envA envB : Env) (u : String)
    (t0 : List Ev)
    (hP : performLoginWithChallenges envA u
        = performLoginWithChallenges envB u)
    (hs : envA.serialized = envB.serialized) :
    ((freshLoginProceed envA u t0).1 = (freshLoginProceed envB u t0).1) ∧
    ((freshLoginProceed envA u t0).2.1
       = (freshLoginProceed envB u t0).2.1) := by
  simp only [freshLoginProceed, hP, hs]
  rcases hQ : performLoginWithChallenges envB u with ⟨r, t⟩
  cases r <;> simp [hQ]

/-- Result and trace of the fresh-login tail agree across environments
with equal login-relevant outcomes. -/
theorem freshLoginTail_parts (envA envB : Env) (u : String) (t0 : List Ev)
    (hpre : envA.preLoginResult = envB.preLoginResult)
    (hP : performLoginWithChallenges envA u
        = performLoginWithChallenges envB u)
    (hs : envA.serialized = envB.serialized) :
    ((freshLoginTail envA u t0).1 = (freshLoginTail envB u t0).1) ∧
    ((freshLoginTail envA u t0).2.1 = (freshLoginTail envB u t0).2.1) := by
  simp only [freshLoginTail, hpre]
  cases hB : envB.preLoginResult with
  | ok x => exact freshLoginProceed_parts envA envB u t0 hP hs
  | error e =>
    cases h : isRecoverablePreLoginError e
    · simp [h]
    · simp only [h, if_pos]
      exact freshLoginProceed_parts envA envB u t0 hP hs

/-- A successful fresh-login tail always leaves the constants-stripped
serialized state as the session file and reports a non-reused
session. -/
theorem freshLoginTail_ok_file (env : Env) (u : String) (t0 : List Ev)
    (r : AcqResult) (t : List Ev) (f : Option FileContent)
    (h : freshLoginTail env u t0 = (Except.ok r, t, f)) :
    f = some (FileContent.wellFormed (eraseConstants env.serialized)) ∧
    r = { username := u, ok := true, reusedSession := false } := by
  unfold freshLoginTail at h
  have hProc : ∀ (h2 : freshLoginProceed env u t0 = (Except.ok r, t, f)),
      f = some (FileContent.wellFormed (eraseConstants env.serialized)) ∧
      r = { username := u, ok := true, reusedSession := false } := by
    intro h2
    unfold freshLoginProceed at h2
    rcases hQ : performLoginWithChallenges env u with ⟨pr, pt⟩
    rw [hQ] at h2
    cases pr with
    | error e => simp at h2
    | ok x =>
      simp only [Prod.mk.injEq] at h2
      obtain ⟨ha, _, hc⟩ := h2
      exact ⟨hc.symm, (Except.ok.inj ha).symm⟩
  cases hB : env.preLoginResult with
  | ok x => simp only [hB] at h; exact hProc h
  | error e =>
    simp only [hB] at h
    by_cases hrec : isRecoverablePreLoginError e = true
    · rw [if_pos hrec] at h; exact hProc h
    · rw [if_neg hrec] at h; simp at h

/-- The session-restore attempt never prompts the operator. -/
theorem tryRestoreSession_count_prompt (env : Env) :
    (tryRestoreSession env).2.count Ev.prompt = 0 := by
  unfold tryRestoreSession
  rcases env.file with _ | fc
  · rfl
  · cases fc with
    | corrupt => rfl
    | wellFormed d =>
      cases env.deserializeResult with
      | error e => rfl
      | ok x =>
        cases env.restoreProbe with
        | error e => rfl
        | ok y => rfl

/-- Selection by `pickNextUnpostedVideo` is the first-match search over the candidate
list. -/
theorem pickNextUnpostedVideo_eq_find? (items : List VideoItem)
    (s : List String) :
    pickNextUnpostedVideo items s
      = items.find? (fun i => !(s.contains i.key)) := by
  induction items with
  | nil => rfl
  | cons a rest ih =>
    rw [pickNextUnpostedVideo, List.find?_cons]
    cases h : s.contains a.key <;> simp [h, ih]

/-- The page loop collects exactly the filtered contents of the reached
pages. -/
theorem collectVideoPages_eq_filter (pages : List R2Page) :
    collectVideoPages pages
      = (reachedContents pages).filter isVideoObject := by
  induction pages with
  | nil => rfl
  | cons p rest ih =>
    rw [collectVideoPages, reachedContents, List.filter_append]
    cases h : p.isTruncated && tokenTruthy p.nextContinuationToken <;>
      simp [h, ih]

/-- The comparator used by `listAllVideosFromR2` is transitive. -/
theorem itemTimeLe_trans (a b c : VideoItem)
    (hab : decide (itemTime a ≤ itemTime b) = true)
    (hbc : decide (itemTime b ≤ itemTime c) = true) :
    decide (itemTime a ≤ itemTime c) = true := by
  simp only [decide_eq_true_eq] at *
  omega

/-- The comparator used by `listAllVideosFromR2` is total. -/
theorem itemTimeLe_total (a b : VideoItem) :
    (decide (itemTime a ≤ itemTime b) || decide (itemTime b ≤ itemTime a))
      = true := by
  simp [Nat.le_total]

/-! ### Claims about upload-video.js -/

/-- C6: for every candidate list and uploaded-key set, next-video
selection returns the first candidate whose key is not in the set, is
`none` exactly when every candidate's key is in the set, never returns
an already-uploaded key, and on the concrete instance
`uploaded_keys = ["a.mp4"]`, candidates `["a.mp4", "b.mp4"]`, selects
`"b.mp4"`. -/
theorem claim6_pick_next_unposted :
    (∀ (items : List VideoItem) (s : List String),
        pickNextUnpostedVideo items s
          = items.find? (fun i => !(s.contains i.key))) ∧
    (∀ (items : List VideoItem) (s : List String),
        pickNextUnpostedVideo items s = none ↔
          ∀ i ∈ items, s.contains i.key = true) ∧
    (∀ (items : List VideoItem) (s : List String) (v : VideoItem),
        pickNextUnpostedVideo items s = some v →
          s.contains v.key = false ∧ v ∈ items) ∧
    pickNextUnpostedVideo
        [⟨"a.mp4", some 1⟩, ⟨"b.mp4", some 2⟩] ["a.mp4"]
      = some ⟨"b.mp4", some 2⟩ := by
  refine ⟨pickNextUnpostedVideo_eq_find?, ?_, ?_, by decide⟩
  · intro items s
    rw [pickNextUnpostedVideo_eq_find?, List.find?_eq_none]
    simp
  · intro items s v h
    rw [pickNextUnpostedVideo_eq_find?] at h
    have hp := List.find?_some h
    have hm := List.mem_of_find?_eq_some h
    simp only [Bool.not_eq_true'] at hp
    exact ⟨hp, hm⟩

/-- Witness for C6: instantiating the never-already-uploaded conjunct on
the concrete two-candidate instance. -/
theorem claim6_pick_next_unposted_witness :
    (["a.mp4"] : List String).contains
        (⟨"b.mp4", some 2⟩ : VideoItem).key = false ∧
    (⟨"b.mp4", some 2⟩ : VideoItem)
      ∈ [(⟨"a.mp4", some 1⟩ : VideoItem), ⟨"b.mp4", some 2⟩] :=
  claim6_pick_next_unposted.2.2.1
    [⟨"a.mp4", some 1⟩, ⟨"b.mp4", some 2⟩] ["a.mp4"]
    ⟨"b.mp4", some 2⟩ (by decide)

/-- C7: the video listing contains exactly the objects of the reached
pages whose key ends (case-insensitively) with one of the four video
extensions — stated as a permutation of the filtered reached contents
together with a membership characterization — and is sorted ascending by
last-modified timestamp. -/
theorem claim7_list_all_videos (pages : List R2Page) :
    (listAllVideosFromR2 pages).Perm
        ((reachedContents pages).filter isVideoObject) ∧
    List.Sorted (fun a b => itemTime a ≤ itemTime b)
        (listAllVideosFromR2 pages) ∧
    (∀ x : VideoItem,
        x ∈ listAllVideosFromR2 pages ↔
          x ∈ reachedContents pages ∧ isVideoObject x = true) := by
  refine ⟨?_, ?_, ?_⟩
  · rw [listAllVideosFromR2, collectVideoPages_eq_filter]
    exact List.mergeSort_perm _ _
  · have h := List.sorted_mergeSort itemTimeLe_trans itemTimeLe_total
      (collectVideoPages pages)
    exact h.imp (fun hab => of_decide_eq_true hab)
  · intro x
    rw [listAllVideosFromR2, List.mem_mergeSort,
      collectVideoPages_eq_filter, List.mem_filter]

/-- Witness for C7: the permutation conjunct instantiated on a concrete
single-page listing. -/
theorem claim7_list_all_videos_witness :
    (listAllVideosFromR2
        [{ contents := [⟨"B.MP4", some 5⟩, ⟨"notes.txt", some 1⟩]
           isTruncated := false, nextContinuationToken := none }]).Perm
      ((reachedContents
        [{ contents := [⟨"B.MP4", some 5⟩, ⟨"notes.txt", some 1⟩]
           isTruncated := false, nextContinuationToken := none }]).filter
        isVideoObject) :=
  (claim7_list_all_videos
    [{ contents := [⟨"B.MP4", some 5⟩, ⟨"notes.txt", some 1⟩]
       isTruncated := false, nextContinuationToken := none }]).1

/-- C8 counterexample: `saveSession` performs a single direct write to
the final session-file path; its filesystem-operation sequence contains
no rename (hence no temp-path-then-rename step), refuting the claimed
atomic write mechanism on a concrete session. -/
theorem claim8_counterexample :
    saveSessionOps [("constants", "k"), ("cookies", "x")]
        "sessions/demo.json"
      = [FsOp.writeFile "sessions/demo.json" [("cookies", "x")]] ∧
    (saveSessionOps [("constants", "k"), ("cookies", "x")]
        "sessions/demo.json").all
      (fun op => match op with
        | FsOp.rename _ _ => false
        | FsOp.writeFile _ _ => true) = true := by
  constructor <;> rfl

/-- C8 amended: every persisted write of the per-username session file
is one direct `writeFileSync` of the constants-stripped serialized state
to the final path, with no temporary path and no rename step; no
atomicity mechanism is present. -/
theorem claim8_save_session_direct_write (serialized : SessionData)
    (sessionFilePath : String) :
    saveSessionOps serialized sessionFilePath
      = [FsOp.writeFile sessionFilePath (eraseConstants serialized)] ∧
    (saveSessionOps serialized sessionFilePath).all
      (fun op => match op with
        | FsOp.rename _ _ => false
        | FsOp.writeFile _ _ => true) = true := by
  constructor <;> rfl

/-- C9: `publishAsReel` tries exactly the three payload shapes in order,
all sharing the video, cover and caption and differing only in the
optional reel flags (`isClip := true`, then `post := "reel"`, then
neither); the first success is returned without attempting later
shapes, and when all three fail the last attempt's error is raised. -/
theorem claim9_publish_as_reel :
    (∀ (v c : Buf) (cap : String),
        publishAttempts v c cap
          = [{ video := v, coverImage := c, caption := cap
               isClip := some true, post := none },
             { video := v, coverImage := c, caption := cap
               isClip := none, post := some "reel" },
             { video := v, coverImage := c, caption := cap
               isClip := none, post := none }]) ∧
    (∀ (f : PublishPayload → Except IgError PublishResult)
        (v c : Buf) (cap : String) (r : PublishResult),
        f { video := v, coverImage := c, caption := cap
            isClip := some true, post := none } = Except.ok r →
        publishAsReel f v c cap
          = (Except.ok r,
             [{ video := v, coverImage := c, caption := cap
                isClip := some true, post := none }])) ∧
    (∀ (f : PublishPayload → Except IgError PublishResult)
        (v c : Buf) (cap : String) (e1 : IgError) (r : PublishResult),
        f { video := v, coverImage := c, caption := cap
            isClip := some true, post := none } = Except.error e1 →
        f { video := v, coverImage := c, caption := cap
            isClip := none, post := some "reel" } = Except.ok r →
        (publishAsReel f v c cap).1 = Except.ok r ∧
        (publishAsReel f v c cap).2.length = 2) ∧
    (∀ (f : PublishPayload → Except IgError PublishResult)
        (v c : Buf) (cap : String) (e1 e2 e3 : IgError),
        f { video := v, coverImage := c, caption := cap
            isClip := some true, post := none } = Except.error e1 →
        f { video := v, coverImage := c, caption := cap
            isClip := none, post := some "reel" } = Except.error e2 →
        f { video := v, coverImage := c, caption := cap
            isClip := none, post := none } = Except.error e3 →
        publishAsReel f v c cap
          = (Except.error e3,
             publishAttempts v c cap)) := by
  refine ⟨fun _ _ _ => rfl, ?_, ?_, ?_⟩
  · intro f v c cap r h1
    simp [publishAsReel, publishAttempts, tryPublishSeq, h1]
  · intro f v c cap e1 r h1 h2
    simp [publishAsReel, publishAttempts, tryPublishSeq, h1, h2]
  · intro f v c cap e1 e2 e3 h1 h2 h3
    simp [publishAsReel, publishAttempts, tryPublishSeq, h1, h2, h3]

/-- Witness for C9: a concrete client rejecting the first shape and
accepting the second; the first-success result is returned after two
attempts. -/
theorem claim9_publish_as_reel_witness :
    (publishAsReel
        (fun p =>
          if p.post = some "reel" then
            Except.ok { mediaId := "m1", mediaCode := "c1" }
          else Except.error { message := "Transcode error"
                              bodyMessage := "", hasTwoFactorInfo := false })
        [1, 2] [3] "cap").1
      = Except.ok { mediaId := "m1", mediaCode := "c1" } ∧
    (publishAsReel
        (fun p =>
          if p.post = some "reel" then
            Except.ok { mediaId := "m1", mediaCode := "c1" }
          else Except.error { message := "Transcode error"
                              bodyMessage := "", hasTwoFactorInfo := false })
        [1, 2] [3] "cap").2.length = 2 :=
  claim9_publish_as_reel.2.2.1
    (fun p =>
      if p.post = some "reel" then
        Except.ok { mediaId := "m1", mediaCode := "c1" }
      else Except.error { message := "Transcode error"
                          bodyMessage := "", hasTwoFactorInfo := false })
    [1, 2] [3] "cap"
    { message := "Transcode error", bodyMessage := ""
      hasTwoFactorInfo := false }
    { mediaId := "m1", mediaCode := "c1" }
    (by rfl) (by rfl)

/-- C3 counterexample: the error message "Please complete 2FA
verification" contains none of the spec's markers, yet the code
classifies it as two-factor and therefore recoverable — the code also
matches the marker `2fa`, which the claim's "and by nothing else"
excludes. -/
theorem claim3_counterexample :
    specMarkerMatch
        { message := "Please complete 2FA verification"
          bodyMessage := "", hasTwoFactorInfo := false } = false ∧
    (normalizeApiError
        { message := "Please complete 2FA verification"
          bodyMessage := "", hasTwoFactorInfo := false }).isTwoFactor
      = true ∧
    isRecoverablePreLoginError
        { message := "Please complete 2FA verification"
          bodyMessage := "", hasTwoFactorInfo := false } = true := by
  refine ⟨by decide, by decide, by decide⟩

/-- C3 amended: classification tests the case-insensitive markers
`two_factor_required`/`two-factor`/`2fa` (two-factor),
`checkpoint_required` (checkpoint) and `challenge_required` (challenge)
against the lowercased concatenation of the top-level and nested
response-body messages, and depends on nothing but those two message
fields; an error matching none of the markers is classified
unrecoverable. -/
theorem claim3_classification (e : IgError) :
    ((normalizeApiError e).isTwoFactor,
     (normalizeApiError e).isCheckpoint,
     (normalizeApiError e).isChallenge) = amendedClassify e ∧
    isRecoverablePreLoginError e
      = ((amendedClassify e).1 || (amendedClassify e).2.1 ||
          (amendedClassify e).2.2) ∧
    (∀ e' : IgError, e.message = e'.message →
        e.bodyMessage = e'.bodyMessage →
        normalizeApiError e = normalizeApiError e' ∧
        isRecoverablePreLoginError e = isRecoverablePreLoginError e') := by
  refine ⟨rfl, ?_, ?_⟩
  · simp [isRecoverablePreLoginError, normalizeApiError, amendedClassify]
    cases h1 : strContains
        (lowerStr (e.message ++ " " ++ e.bodyMessage)) "checkpoint_required" <;>
      cases h2 : strContains
        (lowerStr (e.message ++ " " ++ e.bodyMessage)) "challenge_required" <;>
      simp [h1, h2, Bool.or_comm, Bool.or_assoc, Bool.or_left_comm]
  · intro e' hm hb
    cases e; cases e'
    simp only at hm hb
    subst hm; subst hb
    exact ⟨rfl, rfl⟩

/-- Witness for C3: the classification of an error is unchanged when
only the field outside the two message fields differs. -/
theorem claim3_classification_witness :
    normalizeApiError
        { message := "checkpoint_required", bodyMessage := ""
          hasTwoFactorInfo := false }
      = normalizeApiError
        { message := "checkpoint_required", bodyMessage := ""
          hasTwoFactorInfo := true } ∧
    isRecoverablePreLoginError
        { message := "checkpoint_required", bodyMessage := ""
          hasTwoFactorInfo := false }
      = isRecoverablePreLoginError
        { message := "checkpoint_required", bodyMessage := ""
          hasTwoFactorInfo := true } :=
  (claim3_classification
      { message := "checkpoint_required", bodyMessage := ""
        hasTwoFactorInfo := false }).2.2
    { message := "checkpoint_required", bodyMessage := ""
      hasTwoFactorInfo := true } rfl rfl

/-! ### Claims about the session lifecycle -/

/-- C1: when a persisted session deserializes and its probe succeeds,
acquisition returns the restored handle after exactly one probe call and
zero login calls, leaves the session file unchanged, and a second
acquisition on the resulting file state behaves identically. -/
theorem claim1_valid_session_one_probe (env : Env) (u : String)
    (d : SessionData)
    (hf : env.file = some (FileContent.wellFormed d))
    (hd : env.deserializeResult = Except.ok ())
    (hp : env.restoreProbe = Except.ok ()) :
    loginSingleAccount env u
      = (Except.ok { username := u, ok := true, reusedSession := true },
         [Ev.probe], env.file) ∧
    (loginSingleAccount env u).2.1.count Ev.probe = 1 ∧
    (loginSingleAccount env u).2.1.count Ev.loginCall = 0 ∧
    loginSingleAccount { env with file := (loginSingleAccount env u).2.2 } u
      = loginSingleAccount env u := by
  obtain ⟨f, dr, rp, plr, lr, tfc, tflr, cpc, scr, pcp, slr, ser⟩ := env
  simp only at hf hd hp
  subst hf; subst hd; subst hp
  exact ⟨rfl, rfl, rfl, rfl⟩

/-- Witness for C1: the valid-session environment performs the single
probe and no login. -/
theorem claim1_valid_session_one_probe_witness :
    loginSingleAccount demoValidEnv "demo"
      = (Except.ok { username := "demo", ok := true, reusedSession := true },
         [Ev.probe], demoValidEnv.file) ∧
    (loginSingleAccount demoValidEnv "demo").2.1.count Ev.probe = 1 ∧
    (loginSingleAccount demoValidEnv "demo").2.1.count Ev.loginCall = 0 ∧
    loginSingleAccount
        { demoValidEnv with file := (loginSingleAccount demoValidEnv "demo").2.2 }
        "demo"
      = loginSingleAccount demoValidEnv "demo" :=
  claim1_valid_session_one_probe demoValidEnv "demo" [("cookies", "x")]
    rfl rfl rfl

/-- C2: a corrupt session file is handled identically to a missing one —
the parse error is caught, the run falls through to the same fresh
login, and the acquisition result and event trace coincide with the
missing-file run; likewise in the old single-account script. -/
theorem claim2_corrupt_equals_missing (env : Env) (u : String)
    (oenv : OldEnv) :
    ((loginSingleAccount { env with file := some FileContent.corrupt } u).1
       = (loginSingleAccount { env with file := none } u).1) ∧
    ((loginSingleAccount { env with file := some FileContent.corrupt } u).2.1
       = (loginSingleAccount { env with file := none } u).2.1) ∧
    oldLogin { oenv with fileExists := true, loadOk := false }
      = oldLogin { oenv with fileExists := false } := by
  have h := freshLoginTail_parts { env with file := some FileContent.corrupt }
    { env with file := none } u [] rfl rfl rfl
  exact ⟨h.1, h.2, rfl⟩

/-- C4: with no restorable session and three consecutive non-challenge
login failures, the old script's acquisition exits through the
exhausted-retries terminal carrying the final attempt's error, having
issued exactly 3 login calls with the fixed 5000 ms delay between
consecutive attempts; in the unified multi-account path a non-challenge
failure aborts after a single login call (so the three-attempt scenario
arises only in the retrying script). -/
theorem claim4_exhausted_after_three_attempts (env : OldEnv)
    (e0 e1 e2 : IgError)
    (hres : env.fileExists = false ∨ env.loadOk = false ∨
        env.probeOk = false)
    (h0 : env.loginResult 0 = Except.error e0)
    (h1 : env.loginResult 1 = Except.error e1)
    (h2 : env.loginResult 2 = Except.error e2)
    (n0 : oldNonChallenge e0 = true)
    (n1 : oldNonChallenge e1 = true)
    (n2 : oldNonChallenge e2 = true) :
    oldLogin env
      = (OldResult.exhausted e2,
         oldRestoreTrace env ++
           [Ev.loginCall, Ev.wait 5000, Ev.loginCall, Ev.wait 5000,
            Ev.loginCall]) ∧
    (oldLogin env).2.count Ev.loginCall = 3 ∧
    (oldLogin env).2.count (Ev.wait 5000) = 2 ∧
    (∀ (env2 : Env) (u : String) (e : IgError),
        env2.loginResult = Except.error e →
        isRecoverablePreLoginError e = false →
        performLoginWithChallenges env2 u
          = (Except.error e, [Ev.loginCall])) := by
  simp only [oldNonChallenge, Bool.and_eq_true, Bool.not_eq_true']
    at n0 n1 n2
  obtain ⟨⟨c0, l0⟩, t0⟩ := n0
  obtain ⟨⟨c1, l1⟩, t1⟩ := n1
  obtain ⟨⟨c2, l2⟩, t2⟩ := n2
  have hloop : oldLoop env 3 5000 3 0
      = (OldResult.exhausted e2,
         [Ev.loginCall, Ev.wait 5000, Ev.loginCall, Ev.wait 5000,
          Ev.loginCall]) := by
    simp [oldLoop, h0, h1, h2, c0, l0, t0, c1, l1, t1, c2, l2, t2]
  have hcond : (env.fileExists && env.loadOk && env.probeOk) = false := by
    rcases hres with h | h | h <;> simp [h]
  refine ⟨?_, ?_, ?_, ?_⟩
  · simp only [oldLogin, hcond, Bool.false_eq_true, if_false, hloop]
  · simp only [oldLogin, hcond, Bool.false_eq_true, if_false, hloop]
    simp [oldRestoreTrace, List.count_append]
    rcases env.fileExists with _ | _ <;>
      rcases env.loadOk with _ | _ <;> simp
  · simp only [oldLogin, hcond, Bool.false_eq_true, if_false, hloop]
    simp [oldRestoreTrace, List.count_append]
    rcases env.fileExists with _ | _ <;>
      rcases env.loadOk with _ | _ <;> simp
  · intro env2 u e he hrec
    simp only [isRecoverablePreLoginError, Bool.or_eq_false_iff] at hrec
    obtain ⟨⟨hc, hch⟩, htf⟩ := hrec
    simp [performLoginWithChallenges, he, hc, hch, htf]

/-- Witness for C4: the bad-password environment exhausts all three
attempts and exits with the final error after three login calls and two
5000 ms waits. -/
theorem claim4_exhausted_after_three_attempts_witness :
    oldLogin retryFailEnv
      = (OldResult.exhausted badPasswordError,
         oldRestoreTrace retryFailEnv ++
           [Ev.loginCall, Ev.wait 5000, Ev.loginCall, Ev.wait 5000,
            Ev.loginCall]) ∧
    (oldLogin retryFailEnv).2.count Ev.loginCall = 3 ∧
    (oldLogin retryFailEnv).2.count (Ev.wait 5000) = 2 :=
  have h := claim4_exhausted_after_three_attempts retryFailEnv
    badPasswordError badPasswordError badPasswordError
    (Or.inl rfl) rfl rfl rfl (by decide) (by decide) (by decide)
  ⟨h.1, h.2.1, h.2.2.1⟩

/-- C5 counterexample: in the multi-account path, a checkpoint whose
first submitted code is rejected fails immediately with the rejection
error after exactly one prompt — there is no second prompt, so
acquisition does not re-prompt once more as claimed. -/
theorem claim5_counterexample :
    (loginSingleAccount checkpointRejectEnv "demo").2.1.count Ev.prompt
      = 1 ∧
    (loginSingleAccount checkpointRejectEnv "demo").1
      = Except.error
        { message := "Please check the code we sent you and try again"
          bodyMessage := "", hasTwoFactorInfo := false } := by
  constructor <;> rfl

/-- C5 amended: for every checkpoint challenge in which the submitted
verification code is rejected, the multi-account acquisition fails
immediately with the rejection error, having prompted exactly once;
no re-prompt ever occurs. -/
theorem claim5_single_prompt_on_rejection (env : Env) (u : String)
    (e eRej : IgError)
    (hnr : ¬((tryRestoreSession env).1 = Except.ok true))
    (hpre : env.preLoginResult = Except.ok ())
    (hl : env.loginResult = Except.error e)
    (h2f : (normalizeApiError e).isTwoFactor = false)
    (hcp : ((normalizeApiError e).isCheckpoint ||
        (normalizeApiError e).isChallenge) = true)
    (hcode : ¬(env.checkpointCode = ""))
    (hrej : env.sendCodeResult = Except.error eRej) :
    (loginSingleAccount env u).1 = Except.error eRej ∧
    (loginSingleAccount env u).2.1.count Ev.prompt = 1 := by
  have hperf : performLoginWithChallenges env u
      = (Except.error eRej,
         [Ev.loginCall, Ev.challengeAuto, Ev.prompt,
          Ev.sendSecurityCode]) := by
    simp only [performLoginWithChallenges, hl, h2f, hcp, handleCheckpoint,
      hrej, Bool.false_eq_true, if_false, if_true]
    simp [hcode]
  have htail : ∀ t0, freshLoginTail env u t0
      = (Except.error eRej,
         t0 ++ [Ev.preLogin] ++
           [Ev.loginCall, Ev.challengeAuto, Ev.prompt,
            Ev.sendSecurityCode],
         env.file) := by
    intro t0
    simp [freshLoginTail, hpre, freshLoginProceed, hperf]
  have ht0 : (tryRestoreSession env).2.count Ev.prompt = 0 :=
    tryRestoreSession_count_prompt env
  unfold loginSingleAccount
  rcases hR : tryRestoreSession env with ⟨res, t0⟩
  have ht0' : t0.count Ev.prompt = 0 := by rw [hR] at ht0; exact ht0
  cases res with
  | error e2 =>
    dsimp only
    rw [htail t0]
    refine ⟨rfl, ?_⟩
    simp [List.count_append, ht0']
  | ok b =>
    cases b with
    | true => rw [hR] at hnr; simp at hnr
    | false =>
      dsimp only
      rw [htail t0]
      refine ⟨rfl, ?_⟩
      simp [List.count_append, ht0']

/-- Witness for C5: the rejected-checkpoint environment fails with the
rejection error after a single prompt. -/
theorem claim5_single_prompt_on_rejection_witness :
    (loginSingleAccount checkpointRejectEnv "alice").1
      = Except.error
        { message := "Please check the code we sent you and try again"
          bodyMessage := "", hasTwoFactorInfo := false } ∧
    (loginSingleAccount checkpointRejectEnv "alice").2.1.count Ev.prompt
      = 1 :=
  claim5_single_prompt_on_rejection checkpointRejectEnv "alice"
    { message := "checkpoint_required", bodyMessage := ""
      hasTwoFactorInfo := false }
    { message := "Please check the code we sent you and try again"
      bodyMessage := "", hasTwoFactorInfo := false }
    (fun h => Bool.noConfusion (Except.ok.inj h))
    rfl rfl (by decide) (by decide)
    (fun h => by simp [checkpointRejectEnv] at h) rfl

/-- C10: every successful fresh (non-reused) acquisition leaves as the
session file exactly the serialized state with the top-level `constants`
key removed; when the serialized state contains a `constants` binding
the persisted blob differs from the full state, and the stripped object
retains precisely the non-`constants` bindings. -/
theorem claim10_session_file_constants_stripped (env : Env) (u : String)
    (r : AcqResult) (t : List Ev) (f : Option FileContent)
    (hrun : loginSingleAccount env u = (Except.ok r, t, f))
    (hfresh : r.reusedSession = false) :
    f = some (FileContent.wellFormed (eraseConstants env.serialized)) ∧
    (∀ v : String, ("constants", v) ∈ env.serialized →
        f ≠ some (FileContent.wellFormed env.serialized)) ∧
    (∀ v : String, ("constants", v) ∉ eraseConstants env.serialized) ∧
    (∀ kv ∈ env.serialized, kv.1 ≠ "constants" →
        kv ∈ eraseConstants env.serialized) ∧
    (∀ kv ∈ eraseConstants env.serialized, kv ∈ env.serialized) := by
  have hf : f = some (FileContent.wellFormed (eraseConstants env.serialized)) := by
    unfold loginSingleAccount at hrun
    rcases hR : tryRestoreSession env with ⟨res, t0⟩
    rw [hR] at hrun
    cases res with
    | error e => exact (freshLoginTail_ok_file env u t0 r t f hrun).1
    | ok b =>
      cases b with
      | false => exact (freshLoginTail_ok_file env u t0 r t f hrun).1
      | true =>
        simp only [Prod.mk.injEq] at hrun
        obtain ⟨ha, _, _⟩ := hrun
        have := Except.ok.inj ha
        rw [← this] at hfresh
        simp at hfresh
  refine ⟨hf, ?_, ?_, ?_, ?_⟩
  · intro v hv heq
    rw [hf] at heq
    have : eraseConstants env.serialized = env.serialized :=
      FileContent.wellFormed.inj (Option.some.inj heq)
    rw [← this] at hv
    simp [eraseConstants, List.mem_filter] at hv
  · intro v hv
    simp [eraseConstants, List.mem_filter] at hv
  · intro kv hkv hne
    simp [eraseConstants, List.mem_filter]
    exact ⟨hkv, hne⟩
  · intro kv hkv
    exact (List.mem_filter.mp hkv).1

/-- Witness for C10: the fresh-login environment persists its serialized
state minus the `constants` binding. -/
theorem claim10_session_file_constants_stripped_witness :
    (some (FileContent.wellFormed [("cookies", "x")]) : Option FileContent)
      = some (FileContent.wellFormed
          (eraseConstants demoFreshEnv.serialized)) :=
  (claim10_session_file_constants_stripped demoFreshEnv "demo"
    { username := "demo", ok := true, reusedSession := false }
    [Ev.preLogin, Ev.loginCall, Ev.writeSession]
    (some (FileContent.wellFormed [("cookies", "x")]))
    rfl rfl).1

end InstaApi
